import Mathlib

/-!
Verification of the BMP390 calibration-parsing and compensation engine.

The embedding covers the quantized-coefficient engine of the repository's
BMP390 simulator (the "Corrected Version" program) and the reverse
calculator program:

  * `bmp390_parse_calib_data` : 21-byte register block → quantized
    coefficients (raw extraction stage `parse_raw_fields` followed by the
    quantization stage `bmp390_quantize_calib`, exactly as the C function
    body is itself split into the two halves);
  * `bmp390_compensate_temperature`, `bmp390_compensate_pressure` : the
    forward compensation engine.  C doubles are modelled as exact
    rationals (all operations used by the engine are +, -, *, / by
    constants, which are exact), and the `t_lin` pointer write of the
    temperature call is modelled by returning the updated structure; the
    pressure call takes its structure through a `const` pointer and
    performs no write, which is modelled by returning the input structure
    unchanged;
  * `reverse_calc_temperature`, `reverse_calc_pressure` : the bisection
    search of the reverse-calculator program (its copies
    `compensate_temperature` / `compensate_pressure` of the forward
    engine are definitionally reused);
  * `calculate_altitude` : the barometric altitude formula, over ℝ
    because of the fractional exponent.
-/

set_option maxHeartbeats 1600000

namespace BMP390

/-- Reinterpretation of a byte (`0 ≤ b < 256`) as a C `int8_t`. -/
def toInt8 (b : ℕ) : ℤ :=
  if b < 128 then (b : ℤ) else (b : ℤ) - 256

/-- Reinterpretation of a 16-bit value (`0 ≤ v < 65536`) as a C `int16_t`. -/
def toInt16 (v : ℕ) : ℤ :=
  if v < 32768 then (v : ℤ) else (v : ℤ) - 65536

/-- Value of the C expression `(uint16_t)(hi << 8) | lo` assigned to a
`uint16_t`: the cast truncates `hi << 8` to 16 bits, the bitwise or merges
the low byte, and the assignment truncates again. -/
def u16_le (lo hi : ℕ) : ℕ :=
  ((hi * 256 % 65536) ||| lo) % 65536

/-- Value of the C expression `(int16_t)(hi << 8) | lo` assigned to an
`int16_t`.  On two's complement the int16 cast of `hi << 8`, the bitwise
or with the low byte `lo < 256` (which only fills the zero low byte of the
shifted value), and the final int16 conversion on assignment compute
exactly the int16 reinterpretation of the 16-bit little-endian
concatenation, which is how it is written here. -/
def i16_le (lo hi : ℕ) : ℤ :=
  toInt16 (((hi * 256 % 65536) ||| lo) % 65536)

/-- The 14 raw register fields of `bmp390_parse_calib_data` (the block of
local variables `par_t1 .. par_p11` the C function fills before
quantizing).  Unsigned 16-bit fields are ℕ, signed 8/16-bit fields are ℤ. -/
structure bmp390_raw_calib where
  par_t1 : ℕ
  par_t2 : ℕ
  par_t3 : ℤ
  par_p1 : ℤ
  par_p2 : ℤ
  par_p3 : ℤ
  par_p4 : ℤ
  par_p5 : ℕ
  par_p6 : ℕ
  par_p7 : ℤ
  par_p8 : ℤ
  par_p9 : ℤ
  par_p10 : ℤ
  par_p11 : ℤ
  deriving DecidableEq, Repr

/-- BMP390 quantized calibration data (struct `bmp390_calib_data` of the
corrected simulator): 14 coefficients plus the mutable linearization slot
`t_lin`. -/
structure bmp390_calib_data where
  par_t1 : ℚ
  par_t2 : ℚ
  par_t3 : ℚ
  par_p1 : ℚ
  par_p2 : ℚ
  par_p3 : ℚ
  par_p4 : ℚ
  par_p5 : ℚ
  par_p6 : ℚ
  par_p7 : ℚ
  par_p8 : ℚ
  par_p9 : ℚ
  par_p10 : ℚ
  par_p11 : ℚ
  t_lin : ℚ
  deriving DecidableEq, Repr

/-- Raw-field extraction half of `bmp390_parse_calib_data` (lines
"Parse raw values from register buffer").  The register block is 21
bytes. -/
def parse_raw_fields (reg_data : Fin 21 → Fin 256) : bmp390_raw_calib where
  par_t1 := u16_le (reg_data 0) (reg_data 1)
  par_t2 := u16_le (reg_data 2) (reg_data 3)
  par_t3 := toInt8 (reg_data 4)
  par_p1 := i16_le (reg_data 5) (reg_data 6)
  par_p2 := i16_le (reg_data 7) (reg_data 8)
  par_p3 := toInt8 (reg_data 9)
  par_p4 := toInt8 (reg_data 10)
  par_p5 := u16_le (reg_data 11) (reg_data 12)
  par_p6 := u16_le (reg_data 13) (reg_data 14)
  par_p7 := toInt8 (reg_data 15)
  par_p8 := toInt8 (reg_data 16)
  par_p9 := i16_le (reg_data 17) (reg_data 18)
  par_p10 := toInt8 (reg_data 19)
  par_p11 := toInt8 (reg_data 20)

/-- Quantization half of `bmp390_parse_calib_data` (lines "Quantize
according to Bosch's formula").  The C function writes the 14 coefficient
fields of the output struct and never touches its `t_lin` member, so the
`t_lin` of the output-parameter struct `calib_data` is preserved. -/
def bmp390_quantize_calib (r : bmp390_raw_calib) (calib_data : bmp390_calib_data) :
    bmp390_calib_data where
  par_t1 := (r.par_t1 : ℚ) / 0.00390625
  par_t2 := (r.par_t2 : ℚ) / 1073741824.0
  par_t3 := (r.par_t3 : ℚ) / 281474976710656.0
  par_p1 := ((r.par_p1 : ℚ) - 16384.0) / 1048576.0
  par_p2 := ((r.par_p2 : ℚ) - 16384.0) / 536870912.0
  par_p3 := (r.par_p3 : ℚ) / 4294967296.0
  par_p4 := (r.par_p4 : ℚ) / 137438953472.0
  par_p5 := (r.par_p5 : ℚ) / 0.125
  par_p6 := (r.par_p6 : ℚ) / 64.0
  par_p7 := (r.par_p7 : ℚ) / 256.0
  par_p8 := (r.par_p8 : ℚ) / 32768.0
  par_p9 := (r.par_p9 : ℚ) / 281474976710656.0
  par_p10 := (r.par_p10 : ℚ) / 281474976710656.0
  par_p11 := (r.par_p11 : ℚ) / 36893488147419103232.0
  t_lin := calib_data.t_lin

/-- `bmp390_parse_calib_data` of the corrected simulator: raw extraction
followed by quantization, writing into the out-parameter `calib_data`. -/
def bmp390_parse_calib_data (reg_data : Fin 21 → Fin 256)
    (calib_data : bmp390_calib_data) : bmp390_calib_data :=
  bmp390_quantize_calib (parse_raw_fields reg_data) calib_data

/-- Bosch helper `pow_bmp3`: iterated multiplication `result *= base`. -/
def pow_bmp3 (base : ℚ) : ℕ → ℚ
  | 0 => 1
  | n + 1 => pow_bmp3 base n * base

/-- `bmp390_compensate_temperature` of the corrected simulator (and its
verbatim copy `compensate_temperature` in the reverse calculator).  The
write `calib_data->t_lin = ...` through the pointer is modelled by
returning the updated structure next to the returned Celsius value. -/
def bmp390_compensate_temperature (uncomp_temp : ℕ)
    (calib_data : bmp390_calib_data) : ℚ × bmp390_calib_data :=
  let pd1 : ℚ := (uncomp_temp : ℚ) - calib_data.par_t1
  let pd2 : ℚ := pd1 * calib_data.par_t2
  let t_lin : ℚ := pd2 + (pd1 * pd1) * calib_data.par_t3
  (t_lin, { calib_data with t_lin := t_lin })

/-- `bmp390_compensate_pressure` of the corrected simulator (and its
verbatim copy `compensate_pressure` in the reverse calculator).  The
local variables `partial_data1..4` are reused by the C code across the
offset, sensitivity and final blocks; they are named `pd1..pd4` (with
shadowing) here.  The struct comes in through a `const` pointer and no
member is written, so the structure is returned unchanged. -/
def bmp390_compensate_pressure (uncomp_press : ℕ)
    (calib_data : bmp390_calib_data) : ℚ × bmp390_calib_data :=
  let pd1 : ℚ := calib_data.par_p6 * calib_data.t_lin
  let pd2 : ℚ := calib_data.par_p7 * pow_bmp3 calib_data.t_lin 2
  let pd3 : ℚ := calib_data.par_p8 * pow_bmp3 calib_data.t_lin 3
  let partial_out1 : ℚ := calib_data.par_p5 + pd1 + pd2 + pd3
  let pd1 : ℚ := calib_data.par_p2 * calib_data.t_lin
  let pd2 : ℚ := calib_data.par_p3 * pow_bmp3 calib_data.t_lin 2
  let pd3 : ℚ := calib_data.par_p4 * pow_bmp3 calib_data.t_lin 3
  let partial_out2 : ℚ :=
    (uncomp_press : ℚ) * (calib_data.par_p1 + pd1 + pd2 + pd3)
  let pd1 : ℚ := pow_bmp3 (uncomp_press : ℚ) 2
  let pd2 : ℚ := calib_data.par_p9 + calib_data.par_p10 * calib_data.t_lin
  let pd3 : ℚ := pd1 * pd2
  let pd4 : ℚ := pd3 + pow_bmp3 (uncomp_press : ℚ) 3 * calib_data.par_p11
  (partial_out1 + partial_out2 + pd4, calib_data)

/-- Reverse calculator's `compensate_temperature` (verbatim copy of the
corrected simulator's function, so reused definitionally). -/
def compensate_temperature : ℕ → bmp390_calib_data → ℚ × bmp390_calib_data :=
  bmp390_compensate_temperature

/-- Reverse calculator's `compensate_pressure` (verbatim copy of the
corrected simulator's function, so reused definitionally). -/
def compensate_pressure : ℕ → bmp390_calib_data → ℚ × bmp390_calib_data :=
  bmp390_compensate_pressure

theorem pow_bmp3_eq_pow (base : ℚ) (n : ℕ) : pow_bmp3 base n = base ^ n := by
  induction n with
  | zero => rfl
  | succ n ih => rw [pow_bmp3, ih, pow_succ]

/-- C1: temperature compensation computes the degree-2 polynomial
`t_lin = par_t2 * (u - par_t1) + par_t3 * (u - par_t1)^2`, stores it in
the linearization slot, and returns exactly that stored value as the
compensated Celsius reading. -/
theorem C1_temperature_compensation (u : ℕ) (c : bmp390_calib_data) :
    (bmp390_compensate_temperature u c).2.t_lin
        = c.par_t2 * ((u : ℚ) - c.par_t1) + c.par_t3 * ((u : ℚ) - c.par_t1) ^ 2
      ∧ (bmp390_compensate_temperature u c).1
        = (bmp390_compensate_temperature u c).2.t_lin := by
  constructor
  · show ((u : ℚ) - c.par_t1) * c.par_t2
        + (((u : ℚ) - c.par_t1) * ((u : ℚ) - c.par_t1)) * c.par_t3
      = c.par_t2 * ((u : ℚ) - c.par_t1) + c.par_t3 * ((u : ℚ) - c.par_t1) ^ 2
    ring
  · rfl

/-- C2: with the linearization value `t` previously stored by a
temperature-compensation call, pressure compensation returns
`(p5 + p6 t + p7 t² + p8 t³) + u (p1 + p2 t + p3 t² + p4 t³)
 + u² (p9 + p10 t) + u³ p11`. -/
theorem C2_pressure_compensation (u0 : ℕ) (c0 : bmp390_calib_data) (u : ℕ) :
    (bmp390_compensate_pressure u (bmp390_compensate_temperature u0 c0).2).1
      = ((bmp390_compensate_temperature u0 c0).2.par_p5
          + (bmp390_compensate_temperature u0 c0).2.par_p6
              * (bmp390_compensate_temperature u0 c0).2.t_lin
          + (bmp390_compensate_temperature u0 c0).2.par_p7
              * (bmp390_compensate_temperature u0 c0).2.t_lin ^ 2
          + (bmp390_compensate_temperature u0 c0).2.par_p8
              * (bmp390_compensate_temperature u0 c0).2.t_lin ^ 3)
        + (u : ℚ)
            * ((bmp390_compensate_temperature u0 c0).2.par_p1
              + (bmp390_compensate_temperature u0 c0).2.par_p2
                  * (bmp390_compensate_temperature u0 c0).2.t_lin
              + (bmp390_compensate_temperature u0 c0).2.par_p3
                  * (bmp390_compensate_temperature u0 c0).2.t_lin ^ 2
              + (bmp390_compensate_temperature u0 c0).2.par_p4
                  * (bmp390_compensate_temperature u0 c0).2.t_lin ^ 3)
        + (u : ℚ) ^ 2
            * ((bmp390_compensate_temperature u0 c0).2.par_p9
              + (bmp390_compensate_temperature u0 c0).2.par_p10
                  * (bmp390_compensate_temperature u0 c0).2.t_lin)
        + (u : ℚ) ^ 3 * (bmp390_compensate_temperature u0 c0).2.par_p11 := by
  generalize (bmp390_compensate_temperature u0 c0).2 = c
  show c.par_p5 + c.par_p6 * c.t_lin + c.par_p7 * pow_bmp3 c.t_lin 2
        + c.par_p8 * pow_bmp3 c.t_lin 3
      + (u : ℚ) * (c.par_p1 + c.par_p2 * c.t_lin + c.par_p3 * pow_bmp3 c.t_lin 2
        + c.par_p4 * pow_bmp3 c.t_lin 3)
      + (pow_bmp3 (u : ℚ) 2 * (c.par_p9 + c.par_p10 * c.t_lin)
        + pow_bmp3 (u : ℚ) 3 * c.par_p11) = _
  simp only [pow_bmp3_eq_pow]
  ring

/-- C4: each quantized coefficient is the raw field transformed by the
divisor stated in the spec (with the ÷(1/256) and ÷(1/8) transforms
written as such, and the two subtract-16384-then-divide transforms on
fields 4 and 5). -/
theorem C4_quantization_divisors (r : bmp390_raw_calib) (c : bmp390_calib_data) :
    (bmp390_quantize_calib r c).par_t1 = (r.par_t1 : ℚ) / (1 / 256)
      ∧ (bmp390_quantize_calib r c).par_t2 = (r.par_t2 : ℚ) / 2 ^ 30
      ∧ (bmp390_quantize_calib r c).par_t3 = (r.par_t3 : ℚ) / 2 ^ 48
      ∧ (bmp390_quantize_calib r c).par_p1 = ((r.par_p1 : ℚ) - 16384) / 2 ^ 20
      ∧ (bmp390_quantize_calib r c).par_p2 = ((r.par_p2 : ℚ) - 16384) / 2 ^ 29
      ∧ (bmp390_quantize_calib r c).par_p3 = (r.par_p3 : ℚ) / 2 ^ 32
      ∧ (bmp390_quantize_calib r c).par_p4 = (r.par_p4 : ℚ) / 2 ^ 37
      ∧ (bmp390_quantize_calib r c).par_p5 = (r.par_p5 : ℚ) / (1 / 8)
      ∧ (bmp390_quantize_calib r c).par_p6 = (r.par_p6 : ℚ) / 2 ^ 6
      ∧ (bmp390_quantize_calib r c).par_p7 = (r.par_p7 : ℚ) / 2 ^ 8
      ∧ (bmp390_quantize_calib r c).par_p8 = (r.par_p8 : ℚ) / 2 ^ 15
      ∧ (bmp390_quantize_calib r c).par_p9 = (r.par_p9 : ℚ) / 2 ^ 48
      ∧ (bmp390_quantize_calib r c).par_p10 = (r.par_p10 : ℚ) / 2 ^ 48
      ∧ (bmp390_quantize_calib r c).par_p11 = (r.par_p11 : ℚ) / 2 ^ 65 := by
  refine ⟨?_, ?_, ?_, ?_, ?_, ?_, ?_, ?_, ?_, ?_, ?_, ?_, ?_, ?_⟩ <;>
    · show _ / _ = _
      norm_num

theorem lor_low_byte (a b : ℕ) (ha : a < 256) : (b * 256) ||| a = b * 256 + a := by
  have h256 : (256 : ℕ) = 2 ^ 8 := by norm_num
  apply Nat.eq_of_testBit_eq
  intro i
  rw [Nat.testBit_or, h256, Nat.mul_comm b (2 ^ 8)]
  rw [Nat.testBit_mul_pow_two_add b (by rw [← h256]; exact ha) i]
  rw [Nat.testBit_mul_pow_two]
  by_cases h : i < 8
  · simp [h, Nat.not_le.mpr h]
  · have ha' : a < 2 ^ i :=
      lt_of_lt_of_le ha
        (by rw [h256]; exact Nat.pow_le_pow_right (by norm_num) (Nat.le_of_not_lt h))
    simp [h, Nat.le_of_not_lt h, Nat.testBit_lt_two_pow ha']

theorem u16_le_eq (a b : Fin 256) :
    u16_le (a : ℕ) (b : ℕ) = (a : ℕ) + 256 * (b : ℕ) := by
  have ha : (a : ℕ) < 256 := a.isLt
  have hb : (b : ℕ) < 256 := b.isLt
  rw [u16_le, Nat.mod_eq_of_lt (show (b : ℕ) * 256 < 65536 by omega),
    lor_low_byte _ _ ha, Nat.mod_eq_of_lt (by omega)]
  omega

theorem i16_le_eq (a b : Fin 256) :
    i16_le (a : ℕ) (b : ℕ) = toInt16 ((a : ℕ) + 256 * (b : ℕ)) := by
  have h : (((b : ℕ) * 256 % 65536) ||| (a : ℕ)) % 65536 = (a : ℕ) + 256 * (b : ℕ) := by
    have := u16_le_eq a b
    rwa [u16_le] at this
  rw [i16_le, h]

/-- Raw-field extraction exactly as the claim's layout table states it: the
16-bit signed field `par_p9` read little-endian at byte offset 18 (the code
reads it at offset 17).  All other fields as in the table. -/
def parse_raw_fields_claim_layout (reg_data : Fin 21 → Fin 256) : bmp390_raw_calib where
  par_t1 := (reg_data 0 : ℕ) + 256 * (reg_data 1 : ℕ)
  par_t2 := (reg_data 2 : ℕ) + 256 * (reg_data 3 : ℕ)
  par_t3 := toInt8 (reg_data 4)
  par_p1 := toInt16 ((reg_data 5 : ℕ) + 256 * (reg_data 6 : ℕ))
  par_p2 := toInt16 ((reg_data 7 : ℕ) + 256 * (reg_data 8 : ℕ))
  par_p3 := toInt8 (reg_data 9)
  par_p4 := toInt8 (reg_data 10)
  par_p5 := (reg_data 11 : ℕ) + 256 * (reg_data 12 : ℕ)
  par_p6 := (reg_data 13 : ℕ) + 256 * (reg_data 14 : ℕ)
  par_p7 := toInt8 (reg_data 15)
  par_p8 := toInt8 (reg_data 16)
  par_p9 := toInt16 ((reg_data 18 : ℕ) + 256 * (reg_data 19 : ℕ))
  par_p10 := toInt8 (reg_data 19)
  par_p11 := toInt8 (reg_data 20)

/-- The documented 21-byte calibration block `raw_calib_data` /
`raw_calib_bytes` used by both programs. -/
def raw_calib_bytes : Fin 21 → Fin 256 :=
  ![0xCB, 0x68, 0x68, 0x66, 0x03, 0xE9, 0xBE, 0x71, 0xD5, 0x07, 0x05,
    0xFF, 0x9F, 0xFF, 0x9F, 0x0F, 0xFE, 0x00, 0xE0, 0xE0, 0xEB]

/-- C3 counterexample: on the repository's own documented calibration
block, the decoder's `par_p9` (read from bytes 17 and 18, giving −8192 as
the source comment states) differs from a 16-bit little-endian field read
at offset 18 as the claim states (which would give −7968). -/
theorem C3_counterexample_p9_offset :
    (parse_raw_fields raw_calib_bytes).par_p9
      ≠ (parse_raw_fields_claim_layout raw_calib_bytes).par_p9 := by
  decide

/-- C3 amended: the decoder extracts the 14 fields little-endian at the
claimed offsets, widths and signedness, except that the 16-bit signed
field `par_p9` sits at byte offset 17 (bytes 17–18), not 18. -/
theorem C3_amended_field_layout (reg : Fin 21 → Fin 256) :
    (parse_raw_fields reg).par_t1 = (reg 0 : ℕ) + 256 * (reg 1 : ℕ)
      ∧ (parse_raw_fields reg).par_t2 = (reg 2 : ℕ) + 256 * (reg 3 : ℕ)
      ∧ (parse_raw_fields reg).par_t3 = toInt8 (reg 4)
      ∧ (parse_raw_fields reg).par_p1 = toInt16 ((reg 5 : ℕ) + 256 * (reg 6 : ℕ))
      ∧ (parse_raw_fields reg).par_p2 = toInt16 ((reg 7 : ℕ) + 256 * (reg 8 : ℕ))
      ∧ (parse_raw_fields reg).par_p3 = toInt8 (reg 9)
      ∧ (parse_raw_fields reg).par_p4 = toInt8 (reg 10)
      ∧ (parse_raw_fields reg).par_p5 = (reg 11 : ℕ) + 256 * (reg 12 : ℕ)
      ∧ (parse_raw_fields reg).par_p6 = (reg 13 : ℕ) + 256 * (reg 14 : ℕ)
      ∧ (parse_raw_fields reg).par_p7 = toInt8 (reg 15)
      ∧ (parse_raw_fields reg).par_p8 = toInt8 (reg 16)
      ∧ (parse_raw_fields reg).par_p9 = toInt16 ((reg 17 : ℕ) + 256 * (reg 18 : ℕ))
      ∧ (parse_raw_fields reg).par_p10 = toInt8 (reg 19)
      ∧ (parse_raw_fields reg).par_p11 = toInt8 (reg 20) :=
  ⟨u16_le_eq (reg 0) (reg 1), u16_le_eq (reg 2) (reg 3), rfl,
    i16_le_eq (reg 5) (reg 6), i16_le_eq (reg 7) (reg 8), rfl, rfl,
    u16_le_eq (reg 11) (reg 12), u16_le_eq (reg 13) (reg 14), rfl, rfl,
    i16_le_eq (reg 17) (reg 18), rfl, rfl⟩

/-- C9: a temperature-compensation call leaves all 14 coefficient fields
unchanged (modifying only the `t_lin` slot), and a pressure-compensation
call leaves the whole structure, `t_lin` included, unchanged. -/
theorem C9_frame_conditions (u : ℕ) (c : bmp390_calib_data) :
    ((bmp390_compensate_temperature u c).2.par_t1 = c.par_t1
      ∧ (bmp390_compensate_temperature u c).2.par_t2 = c.par_t2
      ∧ (bmp390_compensate_temperature u c).2.par_t3 = c.par_t3
      ∧ (bmp390_compensate_temperature u c).2.par_p1 = c.par_p1
      ∧ (bmp390_compensate_temperature u c).2.par_p2 = c.par_p2
      ∧ (bmp390_compensate_temperature u c).2.par_p3 = c.par_p3
      ∧ (bmp390_compensate_temperature u c).2.par_p4 = c.par_p4
      ∧ (bmp390_compensate_temperature u c).2.par_p5 = c.par_p5
      ∧ (bmp390_compensate_temperature u c).2.par_p6 = c.par_p6
      ∧ (bmp390_compensate_temperature u c).2.par_p7 = c.par_p7
      ∧ (bmp390_compensate_temperature u c).2.par_p8 = c.par_p8
      ∧ (bmp390_compensate_temperature u c).2.par_p9 = c.par_p9
      ∧ (bmp390_compensate_temperature u c).2.par_p10 = c.par_p10
      ∧ (bmp390_compensate_temperature u c).2.par_p11 = c.par_p11)
    ∧ (bmp390_compensate_pressure u c).2 = c := by
  exact ⟨⟨rfl, rfl, rfl, rfl, rfl, rfl, rfl, rfl, rfl, rfl, rfl, rfl, rfl, rfl⟩, rfl⟩

/-- The C library function `fabs`, on the exact rational model of doubles.
It is written constructor-headed (absolute value of the numerator over the
same denominator, which is already in lowest terms); `fabs_eq_abs` below
certifies that this is the absolute value. -/
def fabs (x : ℚ) : ℚ :=
  ⟨(x.num.natAbs : ℤ), x.den, x.den_nz, by rw [Int.natAbs_ofNat]; exact x.reduced⟩

theorem fabs_eq_abs (x : ℚ) : fabs x = |x| := by
  rcases le_or_lt 0 x with h | h
  · rw [abs_of_nonneg h]
    refine Rat.ext ?_ rfl
    show (x.num.natAbs : ℤ) = x.num
    exact Int.natAbs_of_nonneg (Rat.num_nonneg.mpr h)
  · rw [abs_of_neg h]
    refine Rat.ext ?_ ?_
    · show (x.num.natAbs : ℤ) = (-x).num
      rw [Rat.num_neg_eq_neg_num]
      have hn : x.num < 0 := not_le.mp (mt Rat.num_nonneg.mp (not_le.mpr h))
      exact Int.ofNat_natAbs_of_nonpos hn.le
    · show x.den = (-x).den
      rw [Rat.den_neg_eq_den]

/-- Body of `reverse_calc_temperature`: the `while (high - low > 1)`
bisection loop.  `low`, `high`, `mid` are the loop variables (`mid` holds
the midpoint computed by the previous iteration; the loop's C declaration
leaves it uninitialized, but with the fixed initial interval the loop
always runs, so the entry value is never returned).  The first result
component is the returned ADC value, the middle component is a ghost
counter of loop iterations — equivalently of `compensate_temperature`
evaluations, one per iteration — and the last component is the calibration
struct as mutated through the pointer by those evaluations. -/
def reverse_calc_temperature_loop (target_temp_c : ℚ) (calib : bmp390_calib_data)
    (low high mid : ℕ) : ℕ × ℕ × bmp390_calib_data :=
  if 1 < high - low then
    let m := (low + high) / 2
    let r := compensate_temperature m calib
    if fabs (r.1 - target_temp_c) < 0.01 then (m, 1, r.2)
    else if r.1 < target_temp_c then
      let out := reverse_calc_temperature_loop target_temp_c r.2 m high m
      (out.1, out.2.1 + 1, out.2.2)
    else
      let out := reverse_calc_temperature_loop target_temp_c r.2 low m m
      (out.1, out.2.1 + 1, out.2.2)
  else (mid, 0, calib)
termination_by high - low
decreasing_by all_goals (simp_wf; omega)

/-- `reverse_calc_temperature`: binary search over `[0, 16777215]` with
tolerance `0.01` °C. -/
def reverse_calc_temperature (target_temp_c : ℚ) (calib : bmp390_calib_data) :
    ℕ × ℕ × bmp390_calib_data :=
  reverse_calc_temperature_loop target_temp_c calib 0 16777215 0

/-- Body of `reverse_calc_pressure`: same loop with the pressure forward
function, tolerance `10.0` Pa, and a `const` calibration struct (no state
is threaded).  Components: returned ADC value and ghost iteration
counter. -/
def reverse_calc_pressure_loop (target_press_pa : ℚ) (calib : bmp390_calib_data)
    (low high mid : ℕ) : ℕ × ℕ :=
  if 1 < high - low then
    let m := (low + high) / 2
    let calc_press := (compensate_pressure m calib).1
    if fabs (calc_press - target_press_pa) < 10.0 then (m, 1)
    else if calc_press < target_press_pa then
      let out := reverse_calc_pressure_loop target_press_pa calib m high m
      (out.1, out.2 + 1)
    else
      let out := reverse_calc_pressure_loop target_press_pa calib low m m
      (out.1, out.2 + 1)
  else (mid, 0)
termination_by high - low
decreasing_by all_goals (simp_wf; omega)

/-- `reverse_calc_pressure`: binary search over `[0, 16777215]` with
tolerance `10.0` Pa. -/
def reverse_calc_pressure (target_press_pa : ℚ) (calib : bmp390_calib_data) :
    ℕ × ℕ :=
  reverse_calc_pressure_loop target_press_pa calib 0 16777215 0

/-- The spec's description of the inverse search engine, stated over an
arbitrary forward function `f`: at each step evaluate `f` at the midpoint
of the interval; return the midpoint immediately when within tolerance
(strictly, as in the source's `fabs(...) < tolerance`); otherwise narrow
the interval toward the midpoint on the side consistent with `f` being
monotonically increasing; when the interval width reaches 1, return the
last computed midpoint (`lastMid`) without raising any error. -/
def inverse_search_spec (f : ℕ → ℚ) (target tol : ℚ) (low high lastMid : ℕ) : ℕ :=
  if 1 < high - low then
    if fabs (f ((low + high) / 2) - target) < tol then (low + high) / 2
    else if f ((low + high) / 2) < target then
      inverse_search_spec f target tol ((low + high) / 2) high ((low + high) / 2)
    else
      inverse_search_spec f target tol low ((low + high) / 2) ((low + high) / 2)
  else lastMid
termination_by high - low
decreasing_by all_goals (simp_wf; omega)

theorem spec_step_in {f : ℕ → ℚ} {target tol : ℚ} {low high m : ℕ}
    (h1 : 1 < high - low) (hm : (low + high) / 2 = m)
    (hin : fabs (f m - target) < tol) (mid : ℕ) :
    inverse_search_spec f target tol low high mid = m := by
  conv_lhs => rw [inverse_search_spec.eq_def]
  rw [if_pos h1, hm, if_pos hin]

theorem spec_step_lt {f : ℕ → ℚ} {target tol : ℚ} {low high m : ℕ}
    (h1 : 1 < high - low) (hm : (low + high) / 2 = m)
    (hnin : ¬ fabs (f m - target) < tol) (hlt : f m < target) (mid : ℕ) :
    inverse_search_spec f target tol low high mid
      = inverse_search_spec f target tol m high m := by
  conv_lhs => rw [inverse_search_spec.eq_def]
  rw [if_pos h1, hm, if_neg hnin, if_pos hlt]

theorem spec_step_ge {f : ℕ → ℚ} {target tol : ℚ} {low high m : ℕ}
    (h1 : 1 < high - low) (hm : (low + high) / 2 = m)
    (hnin : ¬ fabs (f m - target) < tol) (hge : ¬ f m < target) (mid : ℕ) :
    inverse_search_spec f target tol low high mid
      = inverse_search_spec f target tol low m m := by
  conv_lhs => rw [inverse_search_spec.eq_def]
  rw [if_pos h1, hm, if_neg hnin, if_neg hge]

theorem spec_stop {f : ℕ → ℚ} {target tol : ℚ} {low high : ℕ}
    (h1 : ¬ 1 < high - low) (mid : ℕ) :
    inverse_search_spec f target tol low high mid = mid := by
  rw [inverse_search_spec.eq_def, if_neg h1]

theorem comp_temp_val_pars (m : ℕ) (c c0 : bmp390_calib_data)
    (h1 : c.par_t1 = c0.par_t1) (h2 : c.par_t2 = c0.par_t2) (h3 : c.par_t3 = c0.par_t3) :
    (bmp390_compensate_temperature m c).1 = (bmp390_compensate_temperature m c0).1 := by
  simp only [bmp390_compensate_temperature]
  rw [h1, h2, h3]

/-- The equivalence between the state-threading temperature bisection loop
and the spec-level pure search: the ADC result agrees, because the value
computed by `compensate_temperature` depends only on the three temperature
coefficients, which every intermediate mutated structure shares with the
starting structure. -/
theorem rev_temp_loop_adc_eq (target : ℚ) :
    ∀ d low high mid (c c0 : bmp390_calib_data), high - low = d →
      c.par_t1 = c0.par_t1 → c.par_t2 = c0.par_t2 → c.par_t3 = c0.par_t3 →
      (reverse_calc_temperature_loop target c low high mid).1
        = inverse_search_spec (fun m => (bmp390_compensate_temperature m c0).1)
            target 0.01 low high mid := by
  intro d
  induction d using Nat.strong_induction_on with
  | _ d ih =>
    intro low high mid c c0 hd h1 h2 h3
    rw [reverse_calc_temperature_loop.eq_def]
    rw [inverse_search_spec.eq_def]
    by_cases hc : 1 < high - low
    · rw [if_pos hc, if_pos hc]
      dsimp only
      rw [compensate_temperature, comp_temp_val_pars ((low + high) / 2) c c0 h1 h2 h3]
      by_cases htol :
          fabs ((bmp390_compensate_temperature ((low + high) / 2) c0).1 - target) < 0.01
      · rw [if_pos htol, if_pos htol]
      · rw [if_neg htol, if_neg htol]
        by_cases hlt : (bmp390_compensate_temperature ((low + high) / 2) c0).1 < target
        · rw [if_pos hlt, if_pos hlt]
          dsimp only
          exact ih (high - (low + high) / 2) (by omega) ((low + high) / 2) high
            ((low + high) / 2) _ c0 rfl h1 h2 h3
        · rw [if_neg hlt, if_neg hlt]
          dsimp only
          exact ih ((low + high) / 2 - low) (by omega) low ((low + high) / 2)
            ((low + high) / 2) _ c0 rfl h1 h2 h3
    · rw [if_neg hc, if_neg hc]

/-- The pressure bisection loop likewise computes the spec-level search on
the pressure forward function (the structure is never mutated there). -/
theorem rev_press_loop_adc_eq (target : ℚ) (c : bmp390_calib_data) :
    ∀ d low high mid, high - low = d →
      (reverse_calc_pressure_loop target c low high mid).1
        = inverse_search_spec (fun m => (bmp390_compensate_pressure m c).1)
            target 10.0 low high mid := by
  intro d
  induction d using Nat.strong_induction_on with
  | _ d ih =>
    intro low high mid hd
    rw [reverse_calc_pressure_loop.eq_def]
    rw [inverse_search_spec.eq_def]
    by_cases hc : 1 < high - low
    · rw [if_pos hc, if_pos hc]
      dsimp only
      rw [compensate_pressure]
      by_cases htol :
          fabs ((bmp390_compensate_pressure ((low + high) / 2) c).1 - target) < 10.0
      · rw [if_pos htol, if_pos htol]
      · rw [if_neg htol, if_neg htol]
        by_cases hlt : (bmp390_compensate_pressure ((low + high) / 2) c).1 < target
        · rw [if_pos hlt, if_pos hlt]
          dsimp only
          exact ih (high - (low + high) / 2) (by omega) ((low + high) / 2) high
            ((low + high) / 2) rfl
        · rw [if_neg hlt, if_neg hlt]
          dsimp only
          exact ih ((low + high) / 2 - low) (by omega) low ((low + high) / 2)
            ((low + high) / 2) rfl
    · rw [if_neg hc, if_neg hc]

/-- Iteration bound for the temperature loop: an interval of width at most
`2 ^ n` is exhausted within `n` iterations. -/
theorem rev_temp_loop_count_le (target : ℚ) :
    ∀ n low high mid (c : bmp390_calib_data), high - low ≤ 2 ^ n →
      (reverse_calc_temperature_loop target c low high mid).2.1 ≤ n := by
  intro n
  induction n with
  | zero =>
    intro low high mid c hle
    rw [reverse_calc_temperature_loop.eq_def, if_neg (by simpa using hle : ¬ 1 < high - low)]
  | succ n ihn =>
    intro low high mid c hle
    rw [reverse_calc_temperature_loop.eq_def]
    by_cases hc : 1 < high - low
    · rw [if_pos hc]
      dsimp only
      have hp : (2 : ℕ) ^ (n + 1) = 2 ^ n * 2 := pow_succ 2 n
      by_cases htol :
          fabs ((compensate_temperature ((low + high) / 2) c).1 - target) < 0.01
      · rw [if_pos htol]
        show (1 : ℕ) ≤ n + 1
        omega
      · rw [if_neg htol]
        by_cases hlt : (compensate_temperature ((low + high) / 2) c).1 < target
        · rw [if_pos hlt]
          dsimp only
          have := ihn ((low + high) / 2) high ((low + high) / 2)
            (compensate_temperature ((low + high) / 2) c).2 (by omega)
          omega
        · rw [if_neg hlt]
          dsimp only
          have := ihn low ((low + high) / 2) ((low + high) / 2)
            (compensate_temperature ((low + high) / 2) c).2 (by omega)
          omega
    · rw [if_neg hc]
      show (0 : ℕ) ≤ n + 1
      omega

/-- Iteration bound for the pressure loop. -/
theorem rev_press_loop_count_le (target : ℚ) (c : bmp390_calib_data) :
    ∀ n low high mid, high - low ≤ 2 ^ n →
      (reverse_calc_pressure_loop target c low high mid).2 ≤ n := by
  intro n
  induction n with
  | zero =>
    intro low high mid hle
    rw [reverse_calc_pressure_loop.eq_def, if_neg (by simpa using hle : ¬ 1 < high - low)]
  | succ n ihn =>
    intro low high mid hle
    rw [reverse_calc_pressure_loop.eq_def]
    by_cases hc : 1 < high - low
    · rw [if_pos hc]
      dsimp only
      have hp : (2 : ℕ) ^ (n + 1) = 2 ^ n * 2 := pow_succ 2 n
      by_cases htol :
          fabs ((compensate_pressure ((low + high) / 2) c).1 - target) < 10.0
      · rw [if_pos htol]
        omega
      · rw [if_neg htol]
        by_cases hlt : (compensate_pressure ((low + high) / 2) c).1 < target
        · rw [if_pos hlt]
          dsimp only
          have := ihn ((low + high) / 2) high ((low + high) / 2) (by omega)
          omega
        · rw [if_neg hlt]
          dsimp only
          have := ihn low ((low + high) / 2) ((low + high) / 2) (by omega)
          omega
    · rw [if_neg hc]
      omega

/-- The spec-level search, started on an interval of width at least 2,
returns a strictly interior point of the interval. -/
theorem inverse_search_spec_mem (f : ℕ → ℚ) (target tol : ℚ) :
    ∀ d low high mid, high - low = d → 2 ≤ d →
      low + 1 ≤ inverse_search_spec f target tol low high mid
        ∧ inverse_search_spec f target tol low high mid ≤ high - 1 := by
  intro d
  induction d using Nat.strong_induction_on with
  | _ d ih =>
    intro low high mid hd h2
    have hc : 1 < high - low := by omega
    rw [inverse_search_spec.eq_def, if_pos hc]
    by_cases htol : fabs (f ((low + high) / 2) - target) < tol
    · rw [if_pos htol]
      omega
    · rw [if_neg htol]
      by_cases hlt : f ((low + high) / 2) < target
      · rw [if_pos hlt]
        by_cases hw : 2 ≤ high - (low + high) / 2
        · have := ih (high - (low + high) / 2) (by omega) ((low + high) / 2) high
            ((low + high) / 2) rfl hw
          omega
        · rw [spec_stop (by omega)]
          omega
      · rw [if_neg hlt]
        by_cases hw : 2 ≤ (low + high) / 2 - low
        · have := ih ((low + high) / 2 - low) (by omega) low ((low + high) / 2)
            ((low + high) / 2) rfl hw
          omega
        · rw [spec_stop (by omega)]
          omega

/-- C5: both inverse searches compute exactly the spec's bisection
algorithm over `[0, 16777215]` against their forward function (return the
midpoint immediately when the forward value is within tolerance of the
target, narrow toward the midpoint otherwise, and return the last computed
midpoint — with no error — once the interval width reaches 1).  In
particular each search always returns a raw value. -/
theorem C5_search_follows_spec (target : ℚ) (c : bmp390_calib_data) :
    (reverse_calc_temperature target c).1
        = inverse_search_spec (fun m => (bmp390_compensate_temperature m c).1)
            target 0.01 0 16777215 0
      ∧ (reverse_calc_pressure target c).1
        = inverse_search_spec (fun m => (bmp390_compensate_pressure m c).1)
            target 10.0 0 16777215 0 :=
  ⟨rev_temp_loop_adc_eq target 16777215 0 16777215 0 c c rfl rfl rfl rfl,
    rev_press_loop_adc_eq target c 16777215 0 16777215 0 rfl⟩

/-- C6: the bisection interval strictly shrinks on every iteration that
does not return, and each search over `[0, 16777215]` performs at most 24
iterations, hence at most 24 forward-compensation evaluations (the middle
result component counts exactly one forward evaluation per iteration). -/
theorem C6_at_most_24_steps (target : ℚ) (c : bmp390_calib_data) :
    (reverse_calc_temperature target c).2.1 ≤ 24
      ∧ (reverse_calc_pressure target c).2 ≤ 24
      ∧ ∀ low high : ℕ, 1 < high - low →
          high - (low + high) / 2 < high - low
            ∧ (low + high) / 2 - low < high - low :=
  ⟨rev_temp_loop_count_le target 24 0 16777215 0 c (by norm_num),
    rev_press_loop_count_le target c 24 0 16777215 0 (by norm_num),
    fun low high h => by omega⟩

/-- C10: the raw ADC value returned by either search lies strictly inside
the initial bounds — at least 1 and at most 16777214 — because every
computed midpoint of an interval of width at least 2 is strictly interior;
the endpoints 0 and 16777215 are never returned. -/
theorem C10_result_strictly_interior (target : ℚ) (c : bmp390_calib_data) :
    (1 ≤ (reverse_calc_temperature target c).1
        ∧ (reverse_calc_temperature target c).1 ≤ 16777214)
      ∧ (1 ≤ (reverse_calc_pressure target c).1
        ∧ (reverse_calc_pressure target c).1 ≤ 16777214) := by
  have ht := rev_temp_loop_adc_eq target 16777215 0 16777215 0 c c rfl rfl rfl rfl
  have hp := rev_press_loop_adc_eq target c 16777215 0 16777215 0 rfl
  have hmt := inverse_search_spec_mem
    (fun m => (bmp390_compensate_temperature m c).1) target 0.01 16777215 0 16777215 0
    rfl (by norm_num)
  have hmp := inverse_search_spec_mem
    (fun m => (bmp390_compensate_pressure m c).1) target 10.0 16777215 0 16777215 0
    rfl (by norm_num)
  rw [reverse_calc_temperature] at *
  rw [reverse_calc_pressure] at *
  omega

/-- `calculate_altitude` of the corrected simulator, over ℝ (the
fractional exponent `pow(x, 0.1903)` forces the real-valued model; the
function is total on the model, as the C function is on doubles). -/
noncomputable def calculate_altitude (pressure : ℝ) : ℝ :=
  let sea_level_pressure : ℝ := 101325.0
  44330.0 * (1.0 - (pressure / sea_level_pressure) ^ (0.1903 : ℝ))

/-- C8: the altitude estimator computes exactly
`44330 * (1 - (p / 101325) ^ 0.1903)` with the fixed sea-level reference
101325 Pa, is defined (returns a value, with no error path) for every real
input, and returns exactly 0 at the sea-level reference pressure. -/
theorem C8_altitude_formula :
    (∀ p : ℝ, calculate_altitude p = 44330 * (1 - (p / 101325) ^ (0.1903 : ℝ)))
      ∧ calculate_altitude 101325 = 0 := by
  constructor
  · intro p
    norm_num [calculate_altitude]
  · norm_num [calculate_altitude, Real.one_rpow]

/-- The struct `bmp390_calib_data calib;` declared by the reverse
calculator's `main` before the field assignments.  Its `t_lin` member is
uninitialized in C and is first written by a `compensate_temperature`
call before any use; it is modelled as starting at 0. -/
def calib_init : bmp390_calib_data :=
  ⟨0, 0, 0, 0, 0, 0, 0, 0, 0, 0, 0, 0, 0, 0, 0⟩

/-- The calibration structure both programs build from the documented
21-byte block (the reverse calculator's `main` inlines exactly the parse
and quantization statements of `bmp390_parse_calib_data`). -/
def calib_example : bmp390_calib_data :=
  bmp390_parse_calib_data raw_calib_bytes calib_init

theorem parse_raw_example :
    parse_raw_fields raw_calib_bytes
      = ⟨26827, 26216, 3, -16663, -10895, 7, 5, 40959, 40959, 15, -2, -8192, -32, -21⟩ := by
  decide

/-- Closed form of the temperature forward value on the example
calibration: `par_t1 = 26827/0.00390625 = 6867712`,
`par_t2 = 26216/2^30`, `par_t3 = 3/2^48`. -/
theorem temp_val_example (m : ℕ) :
    (bmp390_compensate_temperature m calib_example).1
      = ((m : ℚ) - 6867712) * (26216 / 1073741824)
        + (((m : ℚ) - 6867712) * ((m : ℚ) - 6867712)) * (3 / 281474976710656) := by
  have h1 : calib_example.par_t1 = 6867712 := by
    show ((parse_raw_fields raw_calib_bytes).par_t1 : ℚ) / 0.00390625 = 6867712
    rw [parse_raw_example]
    norm_num
  have h2 : calib_example.par_t2 = 26216 / 1073741824 := by
    show ((parse_raw_fields raw_calib_bytes).par_t2 : ℚ) / 1073741824.0 = 26216 / 1073741824
    rw [parse_raw_example]
    norm_num
  have h3 : calib_example.par_t3 = 3 / 281474976710656 := by
    show ((parse_raw_fields raw_calib_bytes).par_t3 : ℚ) / 281474976710656.0
        = 3 / 281474976710656
    rw [parse_raw_example]
    norm_num
  show ((m : ℚ) - calib_example.par_t1) * calib_example.par_t2
      + (((m : ℚ) - calib_example.par_t1) * ((m : ℚ) - calib_example.par_t1))
          * calib_example.par_t3 = _
  rw [h1, h2, h3]

theorem search_example_neg10 :
    inverse_search_spec (fun m => (bmp390_compensate_temperature m calib_example).1)
      (-10 : ℚ) 0.01 0 16777215 0 = 6458367 := by
  have s1 : inverse_search_spec (fun m => (bmp390_compensate_temperature m calib_example).1)
      (-10 : ℚ) 0.01 0 16777215 0
      = inverse_search_spec (fun m => (bmp390_compensate_temperature m calib_example).1)
      (-10 : ℚ) 0.01 0 8388607 8388607 :=
    spec_step_ge (by norm_num) (by norm_num)
      (by norm_num [temp_val_example, fabs_eq_abs, abs_lt])
      (by norm_num [temp_val_example]) 0
  have s2 : inverse_search_spec (fun m => (bmp390_compensate_temperature m calib_example).1)
      (-10 : ℚ) 0.01 0 8388607 8388607
      = inverse_search_spec (fun m => (bmp390_compensate_temperature m calib_example).1)
      (-10 : ℚ) 0.01 4194303 8388607 4194303 :=
    spec_step_lt (by norm_num) (by norm_num)
      (by norm_num [temp_val_example, fabs_eq_abs, abs_lt])
      (by norm_num [temp_val_example]) 8388607
  have s3 : inverse_search_spec (fun m => (bmp390_compensate_temperature m calib_example).1)
      (-10 : ℚ) 0.01 4194303 8388607 4194303
      = inverse_search_spec (fun m => (bmp390_compensate_temperature m calib_example).1)
      (-10 : ℚ) 0.01 6291455 8388607 6291455 :=
    spec_step_lt (by norm_num) (by norm_num)
      (by norm_num [temp_val_example, fabs_eq_abs, abs_lt])
      (by norm_num [temp_val_example]) 4194303
  have s4 : inverse_search_spec (fun m => (bmp390_compensate_temperature m calib_example).1)
      (-10 : ℚ) 0.01 6291455 8388607 6291455
      = inverse_search_spec (fun m => (bmp390_compensate_temperature m calib_example).1)
      (-10 : ℚ) 0.01 6291455 7340031 7340031 :=
    spec_step_ge (by norm_num) (by norm_num)
      (by norm_num [temp_val_example, fabs_eq_abs, abs_lt])
      (by norm_num [temp_val_example]) 6291455
  have s5 : inverse_search_spec (fun m => (bmp390_compensate_temperature m calib_example).1)
      (-10 : ℚ) 0.01 6291455 7340031 7340031
      = inverse_search_spec (fun m => (bmp390_compensate_temperature m calib_example).1)
      (-10 : ℚ) 0.01 6291455 6815743 6815743 :=
    spec_step_ge (by norm_num) (by norm_num)
      (by norm_num [temp_val_example, fabs_eq_abs, abs_lt])
      (by norm_num [temp_val_example]) 7340031
  have s6 : inverse_search_spec (fun m => (bmp390_compensate_temperature m calib_example).1)
      (-10 : ℚ) 0.01 6291455 6815743 6815743
      = inverse_search_spec (fun m => (bmp390_compensate_temperature m calib_example).1)
      (-10 : ℚ) 0.01 6291455 6553599 6553599 :=
    spec_step_ge (by norm_num) (by norm_num)
      (by norm_num [temp_val_example, fabs_eq_abs, abs_lt])
      (by norm_num [temp_val_example]) 6815743
  have s7 : inverse_search_spec (fun m => (bmp390_compensate_temperature m calib_example).1)
      (-10 : ℚ) 0.01 6291455 6553599 6553599
      = inverse_search_spec (fun m => (bmp390_compensate_temperature m calib_example).1)
      (-10 : ℚ) 0.01 6422527 6553599 6422527 :=
    spec_step_lt (by norm_num) (by norm_num)
      (by norm_num [temp_val_example, fabs_eq_abs, abs_lt])
      (by norm_num [temp_val_example]) 6553599
  have s8 : inverse_search_spec (fun m => (bmp390_compensate_temperature m calib_example).1)
      (-10 : ℚ) 0.01 6422527 6553599 6422527
      = inverse_search_spec (fun m => (bmp390_compensate_temperature m calib_example).1)
      (-10 : ℚ) 0.01 6422527 6488063 6488063 :=
    spec_step_ge (by norm_num) (by norm_num)
      (by norm_num [temp_val_example, fabs_eq_abs, abs_lt])
      (by norm_num [temp_val_example]) 6422527
  have s9 : inverse_search_spec (fun m => (bmp390_compensate_temperature m calib_example).1)
      (-10 : ℚ) 0.01 6422527 6488063 6488063
      = inverse_search_spec (fun m => (bmp390_compensate_temperature m calib_example).1)
      (-10 : ℚ) 0.01 6455295 6488063 6455295 :=
    spec_step_lt (by norm_num) (by norm_num)
      (by norm_num [temp_val_example, fabs_eq_abs, abs_lt])
      (by norm_num [temp_val_example]) 6488063
  have s10 : inverse_search_spec (fun m => (bmp390_compensate_temperature m calib_example).1)
      (-10 : ℚ) 0.01 6455295 6488063 6455295
      = inverse_search_spec (fun m => (bmp390_compensate_temperature m calib_example).1)
      (-10 : ℚ) 0.01 6455295 6471679 6471679 :=
    spec_step_ge (by norm_num) (by norm_num)
      (by norm_num [temp_val_example, fabs_eq_abs, abs_lt])
      (by norm_num [temp_val_example]) 6455295
  have s11 : inverse_search_spec (fun m => (bmp390_compensate_temperature m calib_example).1)
      (-10 : ℚ) 0.01 6455295 6471679 6471679
      = inverse_search_spec (fun m => (bmp390_compensate_temperature m calib_example).1)
      (-10 : ℚ) 0.01 6455295 6463487 6463487 :=
    spec_step_ge (by norm_num) (by norm_num)
      (by norm_num [temp_val_example, fabs_eq_abs, abs_lt])
      (by norm_num [temp_val_example]) 6471679
  have s12 : inverse_search_spec (fun m => (bmp390_compensate_temperature m calib_example).1)
      (-10 : ℚ) 0.01 6455295 6463487 6463487
      = inverse_search_spec (fun m => (bmp390_compensate_temperature m calib_example).1)
      (-10 : ℚ) 0.01 6455295 6459391 6459391 :=
    spec_step_ge (by norm_num) (by norm_num)
      (by norm_num [temp_val_example, fabs_eq_abs, abs_lt])
      (by norm_num [temp_val_example]) 6463487
  have s13 : inverse_search_spec (fun m => (bmp390_compensate_temperature m calib_example).1)
      (-10 : ℚ) 0.01 6455295 6459391 6459391
      = inverse_search_spec (fun m => (bmp390_compensate_temperature m calib_example).1)
      (-10 : ℚ) 0.01 6457343 6459391 6457343 :=
    spec_step_lt (by norm_num) (by norm_num)
      (by norm_num [temp_val_example, fabs_eq_abs, abs_lt])
      (by norm_num [temp_val_example]) 6459391
  have s14 : inverse_search_spec (fun m => (bmp390_compensate_temperature m calib_example).1)
      (-10 : ℚ) 0.01 6457343 6459391 6457343 = 6458367 :=
    spec_step_in (by norm_num) (by norm_num)
      (by norm_num [temp_val_example, fabs_eq_abs, abs_lt]) 6457343
  rw [s1, s2, s3, s4, s5, s6, s7, s8, s9, s10, s11, s12, s13]
  exact s14

theorem search_example_zero :
    inverse_search_spec (fun m => (bmp390_compensate_temperature m calib_example).1)
      0 0.01 0 16777215 0 = 6867967 := by
  have s1 : inverse_search_spec (fun m => (bmp390_compensate_temperature m calib_example).1)
      0 0.01 0 16777215 0
      = inverse_search_spec (fun m => (bmp390_compensate_temperature m calib_example).1)
      0 0.01 0 8388607 8388607 :=
    spec_step_ge (by norm_num) (by norm_num)
      (by norm_num [temp_val_example, fabs_eq_abs, abs_lt])
      (by norm_num [temp_val_example]) 0
  have s2 : inverse_search_spec (fun m => (bmp390_compensate_temperature m calib_example).1)
      0 0.01 0 8388607 8388607
      = inverse_search_spec (fun m => (bmp390_compensate_temperature m calib_example).1)
      0 0.01 4194303 8388607 4194303 :=
    spec_step_lt (by norm_num) (by norm_num)
      (by norm_num [temp_val_example, fabs_eq_abs, abs_lt])
      (by norm_num [temp_val_example]) 8388607
  have s3 : inverse_search_spec (fun m => (bmp390_compensate_temperature m calib_example).1)
      0 0.01 4194303 8388607 4194303
      = inverse_search_spec (fun m => (bmp390_compensate_temperature m calib_example).1)
      0 0.01 6291455 8388607 6291455 :=
    spec_step_lt (by norm_num) (by norm_num)
      (by norm_num [temp_val_example, fabs_eq_abs, abs_lt])
      (by norm_num [temp_val_example]) 4194303
  have s4 : inverse_search_spec (fun m => (bmp390_compensate_temperature m calib_example).1)
      0 0.01 6291455 8388607 6291455
      = inverse_search_spec (fun m => (bmp390_compensate_temperature m calib_example).1)
      0 0.01 6291455 7340031 7340031 :=
    spec_step_ge (by norm_num) (by norm_num)
      (by norm_num [temp_val_example, fabs_eq_abs, abs_lt])
      (by norm_num [temp_val_example]) 6291455
  have s5 : inverse_search_spec (fun m => (bmp390_compensate_temperature m calib_example).1)
      0 0.01 6291455 7340031 7340031
      = inverse_search_spec (fun m => (bmp390_compensate_temperature m calib_example).1)
      0 0.01 6815743 7340031 6815743 :=
    spec_step_lt (by norm_num) (by norm_num)
      (by norm_num [temp_val_example, fabs_eq_abs, abs_lt])
      (by norm_num [temp_val_example]) 7340031
  have s6 : inverse_search_spec (fun m => (bmp390_compensate_temperature m calib_example).1)
      0 0.01 6815743 7340031 6815743
      = inverse_search_spec (fun m => (bmp390_compensate_temperature m calib_example).1)
      0 0.01 6815743 7077887 7077887 :=
    spec_step_ge (by norm_num) (by norm_num)
      (by norm_num [temp_val_example, fabs_eq_abs, abs_lt])
      (by norm_num [temp_val_example]) 6815743
  have s7 : inverse_search_spec (fun m => (bmp390_compensate_temperature m calib_example).1)
      0 0.01 6815743 7077887 7077887
      = inverse_search_spec (fun m => (bmp390_compensate_temperature m calib_example).1)
      0 0.01 6815743 6946815 6946815 :=
    spec_step_ge (by norm_num) (by norm_num)
      (by norm_num [temp_val_example, fabs_eq_abs, abs_lt])
      (by norm_num [temp_val_example]) 7077887
  have s8 : inverse_search_spec (fun m => (bmp390_compensate_temperature m calib_example).1)
      0 0.01 6815743 6946815 6946815
      = inverse_search_spec (fun m => (bmp390_compensate_temperature m calib_example).1)
      0 0.01 6815743 6881279 6881279 :=
    spec_step_ge (by norm_num) (by norm_num)
      (by norm_num [temp_val_example, fabs_eq_abs, abs_lt])
      (by norm_num [temp_val_example]) 6946815
  have s9 : inverse_search_spec (fun m => (bmp390_compensate_temperature m calib_example).1)
      0 0.01 6815743 6881279 6881279
      = inverse_search_spec (fun m => (bmp390_compensate_temperature m calib_example).1)
      0 0.01 6848511 6881279 6848511 :=
    spec_step_lt (by norm_num) (by norm_num)
      (by norm_num [temp_val_example, fabs_eq_abs, abs_lt])
      (by norm_num [temp_val_example]) 6881279
  have s10 : inverse_search_spec (fun m => (bmp390_compensate_temperature m calib_example).1)
      0 0.01 6848511 6881279 6848511
      = inverse_search_spec (fun m => (bmp390_compensate_temperature m calib_example).1)
      0 0.01 6864895 6881279 6864895 :=
    spec_step_lt (by norm_num) (by norm_num)
      (by norm_num [temp_val_example, fabs_eq_abs, abs_lt])
      (by norm_num [temp_val_example]) 6848511
  have s11 : inverse_search_spec (fun m => (bmp390_compensate_temperature m calib_example).1)
      0 0.01 6864895 6881279 6864895
      = inverse_search_spec (fun m => (bmp390_compensate_temperature m calib_example).1)
      0 0.01 6864895 6873087 6873087 :=
    spec_step_ge (by norm_num) (by norm_num)
      (by norm_num [temp_val_example, fabs_eq_abs, abs_lt])
      (by norm_num [temp_val_example]) 6864895
  have s12 : inverse_search_spec (fun m => (bmp390_compensate_temperature m calib_example).1)
      0 0.01 6864895 6873087 6873087
      = inverse_search_spec (fun m => (bmp390_compensate_temperature m calib_example).1)
      0 0.01 6864895 6868991 6868991 :=
    spec_step_ge (by norm_num) (by norm_num)
      (by norm_num [temp_val_example, fabs_eq_abs, abs_lt])
      (by norm_num [temp_val_example]) 6873087
  have s13 : inverse_search_spec (fun m => (bmp390_compensate_temperature m calib_example).1)
      0 0.01 6864895 6868991 6868991
      = inverse_search_spec (fun m => (bmp390_compensate_temperature m calib_example).1)
      0 0.01 6866943 6868991 6866943 :=
    spec_step_lt (by norm_num) (by norm_num)
      (by norm_num [temp_val_example, fabs_eq_abs, abs_lt])
      (by norm_num [temp_val_example]) 6868991
  have s14 : inverse_search_spec (fun m => (bmp390_compensate_temperature m calib_example).1)
      0 0.01 6866943 6868991 6866943 = 6867967 :=
    spec_step_in (by norm_num) (by norm_num)
      (by norm_num [temp_val_example, fabs_eq_abs, abs_lt]) 6866943
  rw [s1, s2, s3, s4, s5, s6, s7, s8, s9, s10, s11, s12, s13]
  exact s14

theorem search_example_p25 :
    inverse_search_spec (fun m => (bmp390_compensate_temperature m calib_example).1)
      25 0.01 0 16777215 0 = 7890943 := by
  have s1 : inverse_search_spec (fun m => (bmp390_compensate_temperature m calib_example).1)
      25 0.01 0 16777215 0
      = inverse_search_spec (fun m => (bmp390_compensate_temperature m calib_example).1)
      25 0.01 0 8388607 8388607 :=
    spec_step_ge (by norm_num) (by norm_num)
      (by norm_num [temp_val_example, fabs_eq_abs, abs_lt])
      (by norm_num [temp_val_example]) 0
  have s2 : inverse_search_spec (fun m => (bmp390_compensate_temperature m calib_example).1)
      25 0.01 0 8388607 8388607
      = inverse_search_spec (fun m => (bmp390_compensate_temperature m calib_example).1)
      25 0.01 4194303 8388607 4194303 :=
    spec_step_lt (by norm_num) (by norm_num)
      (by norm_num [temp_val_example, fabs_eq_abs, abs_lt])
      (by norm_num [temp_val_example]) 8388607
  have s3 : inverse_search_spec (fun m => (bmp390_compensate_temperature m calib_example).1)
      25 0.01 4194303 8388607 4194303
      = inverse_search_spec (fun m => (bmp390_compensate_temperature m calib_example).1)
      25 0.01 6291455 8388607 6291455 :=
    spec_step_lt (by norm_num) (by norm_num)
      (by norm_num [temp_val_example, fabs_eq_abs, abs_lt])
      (by norm_num [temp_val_example]) 4194303
  have s4 : inverse_search_spec (fun m => (bmp390_compensate_temperature m calib_example).1)
      25 0.01 6291455 8388607 6291455
      = inverse_search_spec (fun m => (bmp390_compensate_temperature m calib_example).1)
      25 0.01 7340031 8388607 7340031 :=
    spec_step_lt (by norm_num) (by norm_num)
      (by norm_num [temp_val_example, fabs_eq_abs, abs_lt])
      (by norm_num [temp_val_example]) 6291455
  have s5 : inverse_search_spec (fun m => (bmp390_compensate_temperature m calib_example).1)
      25 0.01 7340031 8388607 7340031
      = inverse_search_spec (fun m => (bmp390_compensate_temperature m calib_example).1)
      25 0.01 7864319 8388607 7864319 :=
    spec_step_lt (by norm_num) (by norm_num)
      (by norm_num [temp_val_example, fabs_eq_abs, abs_lt])
      (by norm_num [temp_val_example]) 7340031
  have s6 : inverse_search_spec (fun m => (bmp390_compensate_temperature m calib_example).1)
      25 0.01 7864319 8388607 7864319
      = inverse_search_spec (fun m => (bmp390_compensate_temperature m calib_example).1)
      25 0.01 7864319 8126463 8126463 :=
    spec_step_ge (by norm_num) (by norm_num)
      (by norm_num [temp_val_example, fabs_eq_abs, abs_lt])
      (by norm_num [temp_val_example]) 7864319
  have s7 : inverse_search_spec (fun m => (bmp390_compensate_temperature m calib_example).1)
      25 0.01 7864319 8126463 8126463
      = inverse_search_spec (fun m => (bmp390_compensate_temperature m calib_example).1)
      25 0.01 7864319 7995391 7995391 :=
    spec_step_ge (by norm_num) (by norm_num)
      (by norm_num [temp_val_example, fabs_eq_abs, abs_lt])
      (by norm_num [temp_val_example]) 8126463
  have s8 : inverse_search_spec (fun m => (bmp390_compensate_temperature m calib_example).1)
      25 0.01 7864319 7995391 7995391
      = inverse_search_spec (fun m => (bmp390_compensate_temperature m calib_example).1)
      25 0.01 7864319 7929855 7929855 :=
    spec_step_ge (by norm_num) (by norm_num)
      (by norm_num [temp_val_example, fabs_eq_abs, abs_lt])
      (by norm_num [temp_val_example]) 7995391
  have s9 : inverse_search_spec (fun m => (bmp390_compensate_temperature m calib_example).1)
      25 0.01 7864319 7929855 7929855
      = inverse_search_spec (fun m => (bmp390_compensate_temperature m calib_example).1)
      25 0.01 7864319 7897087 7897087 :=
    spec_step_ge (by norm_num) (by norm_num)
      (by norm_num [temp_val_example, fabs_eq_abs, abs_lt])
      (by norm_num [temp_val_example]) 7929855
  have s10 : inverse_search_spec (fun m => (bmp390_compensate_temperature m calib_example).1)
      25 0.01 7864319 7897087 7897087
      = inverse_search_spec (fun m => (bmp390_compensate_temperature m calib_example).1)
      25 0.01 7880703 7897087 7880703 :=
    spec_step_lt (by norm_num) (by norm_num)
      (by norm_num [temp_val_example, fabs_eq_abs, abs_lt])
      (by norm_num [temp_val_example]) 7897087
  have s11 : inverse_search_spec (fun m => (bmp390_compensate_temperature m calib_example).1)
      25 0.01 7880703 7897087 7880703
      = inverse_search_spec (fun m => (bmp390_compensate_temperature m calib_example).1)
      25 0.01 7888895 7897087 7888895 :=
    spec_step_lt (by norm_num) (by norm_num)
      (by norm_num [temp_val_example, fabs_eq_abs, abs_lt])
      (by norm_num [temp_val_example]) 7880703
  have s12 : inverse_search_spec (fun m => (bmp390_compensate_temperature m calib_example).1)
      25 0.01 7888895 7897087 7888895
      = inverse_search_spec (fun m => (bmp390_compensate_temperature m calib_example).1)
      25 0.01 7888895 7892991 7892991 :=
    spec_step_ge (by norm_num) (by norm_num)
      (by norm_num [temp_val_example, fabs_eq_abs, abs_lt])
      (by norm_num [temp_val_example]) 7888895
  have s13 : inverse_search_spec (fun m => (bmp390_compensate_temperature m calib_example).1)
      25 0.01 7888895 7892991 7892991 = 7890943 :=
    spec_step_in (by norm_num) (by norm_num)
      (by norm_num [temp_val_example, fabs_eq_abs, abs_lt]) 7892991
  rw [s1, s2, s3, s4, s5, s6, s7, s8, s9, s10, s11, s12]
  exact s13

theorem search_example_p50 :
    inverse_search_spec (fun m => (bmp390_compensate_temperature m calib_example).1)
      50 0.01 0 16777215 0 = 8913919 := by
  have s1 : inverse_search_spec (fun m => (bmp390_compensate_temperature m calib_example).1)
      50 0.01 0 16777215 0
      = inverse_search_spec (fun m => (bmp390_compensate_temperature m calib_example).1)
      50 0.01 8388607 16777215 8388607 :=
    spec_step_lt (by norm_num) (by norm_num)
      (by norm_num [temp_val_example, fabs_eq_abs, abs_lt])
      (by norm_num [temp_val_example]) 0
  have s2 : inverse_search_spec (fun m => (bmp390_compensate_temperature m calib_example).1)
      50 0.01 8388607 16777215 8388607
      = inverse_search_spec (fun m => (bmp390_compensate_temperature m calib_example).1)
      50 0.01 8388607 12582911 12582911 :=
    spec_step_ge (by norm_num) (by norm_num)
      (by norm_num [temp_val_example, fabs_eq_abs, abs_lt])
      (by norm_num [temp_val_example]) 8388607
  have s3 : inverse_search_spec (fun m => (bmp390_compensate_temperature m calib_example).1)
      50 0.01 8388607 12582911 12582911
      = inverse_search_spec (fun m => (bmp390_compensate_temperature m calib_example).1)
      50 0.01 8388607 10485759 10485759 :=
    spec_step_ge (by norm_num) (by norm_num)
      (by norm_num [temp_val_example, fabs_eq_abs, abs_lt])
      (by norm_num [temp_val_example]) 12582911
  have s4 : inverse_search_spec (fun m => (bmp390_compensate_temperature m calib_example).1)
      50 0.01 8388607 10485759 10485759
      = inverse_search_spec (fun m => (bmp390_compensate_temperature m calib_example).1)
      50 0.01 8388607 9437183 9437183 :=
    spec_step_ge (by norm_num) (by norm_num)
      (by norm_num [temp_val_example, fabs_eq_abs, abs_lt])
      (by norm_num [temp_val_example]) 10485759
  have s5 : inverse_search_spec (fun m => (bmp390_compensate_temperature m calib_example).1)
      50 0.01 8388607 9437183 9437183
      = inverse_search_spec (fun m => (bmp390_compensate_temperature m calib_example).1)
      50 0.01 8912895 9437183 8912895 :=
    spec_step_lt (by norm_num) (by norm_num)
      (by norm_num [temp_val_example, fabs_eq_abs, abs_lt])
      (by norm_num [temp_val_example]) 9437183
  have s6 : inverse_search_spec (fun m => (bmp390_compensate_temperature m calib_example).1)
      50 0.01 8912895 9437183 8912895
      = inverse_search_spec (fun m => (bmp390_compensate_temperature m calib_example).1)
      50 0.01 8912895 9175039 9175039 :=
    spec_step_ge (by norm_num) (by norm_num)
      (by norm_num [temp_val_example, fabs_eq_abs, abs_lt])
      (by norm_num [temp_val_example]) 8912895
  have s7 : inverse_search_spec (fun m => (bmp390_compensate_temperature m calib_example).1)
      50 0.01 8912895 9175039 9175039
      = inverse_search_spec (fun m => (bmp390_compensate_temperature m calib_example).1)
      50 0.01 8912895 9043967 9043967 :=
    spec_step_ge (by norm_num) (by norm_num)
      (by norm_num [temp_val_example, fabs_eq_abs, abs_lt])
      (by norm_num [temp_val_example]) 9175039
  have s8 : inverse_search_spec (fun m => (bmp390_compensate_temperature m calib_example).1)
      50 0.01 8912895 9043967 9043967
      = inverse_search_spec (fun m => (bmp390_compensate_temperature m calib_example).1)
      50 0.01 8912895 8978431 8978431 :=
    spec_step_ge (by norm_num) (by norm_num)
      (by norm_num [temp_val_example, fabs_eq_abs, abs_lt])
      (by norm_num [temp_val_example]) 9043967
  have s9 : inverse_search_spec (fun m => (bmp390_compensate_temperature m calib_example).1)
      50 0.01 8912895 8978431 8978431
      = inverse_search_spec (fun m => (bmp390_compensate_temperature m calib_example).1)
      50 0.01 8912895 8945663 8945663 :=
    spec_step_ge (by norm_num) (by norm_num)
      (by norm_num [temp_val_example, fabs_eq_abs, abs_lt])
      (by norm_num [temp_val_example]) 8978431
  have s10 : inverse_search_spec (fun m => (bmp390_compensate_temperature m calib_example).1)
      50 0.01 8912895 8945663 8945663
      = inverse_search_spec (fun m => (bmp390_compensate_temperature m calib_example).1)
      50 0.01 8912895 8929279 8929279 :=
    spec_step_ge (by norm_num) (by norm_num)
      (by norm_num [temp_val_example, fabs_eq_abs, abs_lt])
      (by norm_num [temp_val_example]) 8945663
  have s11 : inverse_search_spec (fun m => (bmp390_compensate_temperature m calib_example).1)
      50 0.01 8912895 8929279 8929279
      = inverse_search_spec (fun m => (bmp390_compensate_temperature m calib_example).1)
      50 0.01 8912895 8921087 8921087 :=
    spec_step_ge (by norm_num) (by norm_num)
      (by norm_num [temp_val_example, fabs_eq_abs, abs_lt])
      (by norm_num [temp_val_example]) 8929279
  have s12 : inverse_search_spec (fun m => (bmp390_compensate_temperature m calib_example).1)
      50 0.01 8912895 8921087 8921087
      = inverse_search_spec (fun m => (bmp390_compensate_temperature m calib_example).1)
      50 0.01 8912895 8916991 8916991 :=
    spec_step_ge (by norm_num) (by norm_num)
      (by norm_num [temp_val_example, fabs_eq_abs, abs_lt])
      (by norm_num [temp_val_example]) 8921087
  have s13 : inverse_search_spec (fun m => (bmp390_compensate_temperature m calib_example).1)
      50 0.01 8912895 8916991 8916991
      = inverse_search_spec (fun m => (bmp390_compensate_temperature m calib_example).1)
      50 0.01 8912895 8914943 8914943 :=
    spec_step_ge (by norm_num) (by norm_num)
      (by norm_num [temp_val_example, fabs_eq_abs, abs_lt])
      (by norm_num [temp_val_example]) 8916991
  have s14 : inverse_search_spec (fun m => (bmp390_compensate_temperature m calib_example).1)
      50 0.01 8912895 8914943 8914943 = 8913919 :=
    spec_step_in (by norm_num) (by norm_num)
      (by norm_num [temp_val_example, fabs_eq_abs, abs_lt]) 8914943
  rw [s1, s2, s3, s4, s5, s6, s7, s8, s9, s10, s11, s12, s13]
  exact s14


/-- C7: with the coefficients decoded from the documented calibration
bytes, forward temperature compensation applied to the raw ADC value
returned by the inverse temperature search lands within 0.01 °C of each
target Celsius value in {−10, 0, 25, 50}. -/
theorem C7_inverse_roundtrip_example :
    |(bmp390_compensate_temperature
        (reverse_calc_temperature (-10) calib_example).1 calib_example).1 - (-10)| < 0.01
      ∧ |(bmp390_compensate_temperature
        (reverse_calc_temperature 0 calib_example).1 calib_example).1 - 0| < 0.01
      ∧ |(bmp390_compensate_temperature
        (reverse_calc_temperature 25 calib_example).1 calib_example).1 - 25| < 0.01
      ∧ |(bmp390_compensate_temperature
        (reverse_calc_temperature 50 calib_example).1 calib_example).1 - 50| < 0.01 := by
  have h1 : (reverse_calc_temperature (-10) calib_example).1 = 6458367 := by
    show (reverse_calc_temperature_loop (-10) calib_example 0 16777215 0).1 = 6458367
    rw [rev_temp_loop_adc_eq (-10) 16777215 0 16777215 0 calib_example calib_example
      rfl rfl rfl rfl]
    exact search_example_neg10
  have h2 : (reverse_calc_temperature 0 calib_example).1 = 6867967 := by
    show (reverse_calc_temperature_loop 0 calib_example 0 16777215 0).1 = 6867967
    rw [rev_temp_loop_adc_eq 0 16777215 0 16777215 0 calib_example calib_example
      rfl rfl rfl rfl]
    exact search_example_zero
  have h3 : (reverse_calc_temperature 25 calib_example).1 = 7890943 := by
    show (reverse_calc_temperature_loop 25 calib_example 0 16777215 0).1 = 7890943
    rw [rev_temp_loop_adc_eq 25 16777215 0 16777215 0 calib_example calib_example
      rfl rfl rfl rfl]
    exact search_example_p25
  have h4 : (reverse_calc_temperature 50 calib_example).1 = 8913919 := by
    show (reverse_calc_temperature_loop 50 calib_example 0 16777215 0).1 = 8913919
    rw [rev_temp_loop_adc_eq 50 16777215 0 16777215 0 calib_example calib_example
      rfl rfl rfl rfl]
    exact search_example_p50
  refine ⟨?_, ?_, ?_, ?_⟩
  · rw [h1]
    norm_num [temp_val_example, abs_lt]
  · rw [h2]
    norm_num [temp_val_example, abs_lt]
  · rw [h3]
    norm_num [temp_val_example, abs_lt]
  · rw [h4]
    norm_num [temp_val_example, abs_lt]


/-- Witness for C6 at concrete inputs: the searches for target 25 °C and
1000 Pa on the zeroed structure stay within 24 iterations, and the
width-decrease clause instantiated at the interval `[0, 10]`. -/
theorem C6_at_most_24_steps_witness :
    ((reverse_calc_temperature 25 calib_init).2.1 ≤ 24
        ∧ (reverse_calc_pressure 1000 calib_init).2 ≤ 24)
      ∧ (1 < 10 - 0
        ∧ (10 - (0 + 10) / 2 < 10 - 0 ∧ (0 + 10) / 2 - 0 < 10 - 0)) :=
  ⟨⟨(C6_at_most_24_steps 25 calib_init).1,
      (C6_at_most_24_steps 1000 calib_init).2.1⟩,
    ⟨by norm_num, (C6_at_most_24_steps 25 calib_init).2.2 0 10 (by norm_num)⟩⟩


end BMP390
